import Mathlib

/-!
Verification of the gotodolist authentication core.

This file gives a shallow embedding, in Lean 4, of the credential issuance
and verification subsystem of the gotodolist repository:

* `utils/http.go` (token part): `GenerateAccessToken`, `GenerateRefreshToken`,
  `GetTokenExpiration`, `HashString` (SHA-256, modelled bit-for-bit below);
* `middleware/auth.go`: the `Protect` middleware (header gate, JWT
  validation via `jwt.ParseWithClaims` with an HMAC-only key function,
  claim extraction, ObjectID decoding, user lookup);
* `controllers/auth_controller.go`: `Register`, `Login`, `Logout`,
  `RefreshToken`, `sendTokenResponse`, acting on the user collection,
  which is modelled as a list of user records keyed by `_id`.

Time is modelled in integer seconds (Go `time.Time` comparisons at the
granularity the JWT claims use).  Randomness (`crypto/rand`) and the
Mongo-assigned `_id` are passed in as explicit parameters.  The HMAC
signature of a JWT is modelled as an ideal MAC: the signature value is the
triple (algorithm, claims, key), and verification is equality of triples.
-/

/-- The externally visible part of a gin JSON response: HTTP status code,
the `success` field and the `error` message (empty on success). -/
structure Response where
  status : Nat
  success : Bool
  error : String
deriving DecidableEq, Repr

/-- JWT signing algorithms relevant to the middleware's key function:
the HMAC family (`jwt.SigningMethodHMAC`) plus representative non-HMAC
methods ("none" and RSA). -/
inductive Alg where
  | hs256
  | hs384
  | hs512
  | rs256
  | noneAlg
deriving DecidableEq, Repr

/-- Whether a signing method is an instance of `jwt.SigningMethodHMAC`
(the type assertion in the middleware's key function). -/
def Alg.isHMAC : Alg → Bool
  | .hs256 => true
  | .hs384 => true
  | .hs512 => true
  | _ => false

/-- The claim set of an access token, as `jwt.MapClaims`: the `id` claim
is `none` when the `"id"` key is missing or not a string; `exp` and `iat`
are Unix-second timestamps, absent when the key is missing. -/
structure Claims where
  id : Option String
  exp : Option Int
  iat : Option Int
deriving DecidableEq, Repr

/-- An ideal-MAC signature value: the signed algorithm/claims pair together
with the signing key.  Verification is equality of this triple. -/
structure Sig where
  alg : Alg
  claims : Claims
  key : String
deriving DecidableEq, Repr

/-- A decoded JWT: declared algorithm, claim set and (optional) signature. -/
structure Token where
  alg : Alg
  claims : Claims
  sig : Option Sig
deriving DecidableEq, Repr

/-- The process environment, as an association list of variable/value pairs. -/
abbrev Env := List (String × String)

/-- Looking a key up in the environment (Go `os.LookupEnv`). -/
def lookupEnv (env : Env) (key : String) : Option String :=
  (env.find? (fun p => p.1 == key)).map (fun p => p.2)

/-- Modelled from the spec: the configuration provider — `utils.GetEnv`,
whose definition is not among the provided sources; only its call sites
are — returns the value of the environment variable `key`, falling back
to `defaultValue` when the variable is absent.  The spec treats the
loading mechanism as out of scope and every call site in the sources
passes an explicit default. -/
def GetEnv (env : Env) (key defaultValue : String) : String :=
  match lookupEnv env key with
  | some v => v
  | none => defaultValue

/-- The signing secret used by both `GenerateAccessToken` and the
middleware key function: `GetEnv("JWT_SECRET", "your-secret-key")`. -/
def jwtSecret (env : Env) : String :=
  GetEnv env "JWT_SECRET" "your-secret-key"

/-- `utils.GetTokenExpiration`: now plus the configured access-token
lifetime.  `lifetime` stands for the duration parsed from `JWT_EXPIRE`
(default 24h), in seconds. -/
def GetTokenExpiration (now lifetime : Int) : Int :=
  now + lifetime

/-- `utils.GenerateAccessToken`: claims `{id, exp = now+lifetime, iat = now}`
signed with HS256 under the configured secret.  (`SignedString` cannot fail
for an HMAC method with a byte-slice key, so the error return is omitted.) -/
def GenerateAccessToken (env : Env) (userID : String) (now lifetime : Int) : Token :=
  let claims : Claims :=
    { id := some userID, exp := some (GetTokenExpiration now lifetime), iat := some now }
  { alg := .hs256, claims := claims
    sig := some { alg := .hs256, claims := claims, key := jwtSecret env } }

/-- Internal error classification of `jwt.ParseWithClaims` (v5): key
function failure, signature mismatch, expired claims. -/
inductive JwtError where
  | unverifiable
  | signatureInvalid
  | expired
deriving DecidableEq, Repr

/-- `jwt.ParseWithClaims` with the middleware's key function, on an
already-decoded token: (1) the key function rejects any non-HMAC method;
(2) the signature is verified against the secret; (3) the validator checks
`exp` (when present) with zero leeway: the token is unexpired iff
`now < exp`.  (`iat` is not validated by jwt v5 by default.) -/
def parseWithClaims (secret : String) (now : Int) (tok : Token) : Except JwtError Claims :=
  if ¬ tok.alg.isHMAC then
    .error .unverifiable
  else if tok.sig ≠ some { alg := tok.alg, claims := tok.claims, key := secret } then
    .error .signatureInvalid
  else
    match tok.claims.exp with
    | some e => if now < e then .ok tok.claims else .error .expired
    | none => .ok tok.claims

/-- Response literals of `middleware/auth.go` and the auth controller. -/
def missingHeaderResp : Response := ⟨401, false, "Authorization header required"⟩

/-- 401 response for a header that is not exactly `Bearer {token}`. -/
def malformedHeaderResp : Response := ⟨401, false, "Invalid authorization format, use Bearer {token}"⟩

/-- 401 response for any `ParseWithClaims` failure. -/
def invalidTokenResp : Response := ⟨401, false, "Invalid or expired token"⟩

/-- 401 response when the `id` claim is missing or not a string. -/
def invalidPayloadResp : Response := ⟨401, false, "Invalid token payload"⟩

/-- 401 response when the `id` claim is not a valid ObjectID hex string. -/
def invalidUserIDResp : Response := ⟨401, false, "Invalid user ID in token"⟩

/-- 401 response when no user with the token's id exists. -/
def userNotFoundResp : Response := ⟨401, false, "User not found"⟩

/-- 401 response of `Login` for unknown email or wrong password. -/
def invalidCredentialsResp : Response := ⟨401, false, "Invalid credentials"⟩

/-- 401 response of `RefreshToken` when no user matches the digest with an
unexpired stored expiry. -/
def invalidRefreshResp : Response := ⟨401, false, "Invalid or expired refresh token"⟩

/-- 400 response of `Register` for a duplicate username or email. -/
def duplicateUserResp : Response := ⟨400, false, "Username or email already in use"⟩

/-- A 200 JSON response with `success: true` (token payload elided). -/
def okJSONResp : Response := ⟨200, true, ""⟩

/-- A character accepted by `hex.DecodeString` (`0-9a-fA-F`). -/
def isHexDigitChar (c : Char) : Bool :=
  c.isDigit || ('a' ≤ c && c ≤ 'f') || ('A' ≤ c && c ≤ 'F')

/-- Lower-casing a string character by character. -/
def lowerStr (s : String) : String :=
  String.mk (s.data.map Char.toLower)

/-- `primitive.ObjectIDFromHex`: succeeds exactly on 24-character hex
strings; the resulting ObjectID is represented by its canonical
(lower-case) hex form, since hex decoding is case-insensitive. -/
def objectIDFromHex (s : String) : Option String :=
  if s.length = 24 ∧ s.data.all isHexDigitChar then some (lowerStr s) else none

/-- Go `strings.Split(s, " ")` on the character list: split at every
space, keeping empty fields. -/
def splitSpaceChars : List Char → List Char → List (List Char)
  | [], acc => [acc.reverse]
  | c :: rest, acc =>
    if c = ' ' then acc.reverse :: splitSpaceChars rest []
    else splitSpaceChars rest (c :: acc)

/-- Go `strings.Split(s, " ")`. -/
def splitSpace (s : String) : List String :=
  (splitSpaceChars s.data []).map String.mk

/-! ### SHA-256 (`crypto/sha256`) and hex encoding (`encoding/hex`) -/

/-- Truncation to a 32-bit word. -/
def w32 (x : Nat) : Nat := x &&& 0xFFFFFFFF

/-- 32-bit right rotation. -/
def rotr32 (n x : Nat) : Nat := w32 ((x >>> n) ||| (x <<< (32 - n)))

/-- SHA-256 Σ₀. -/
def bsig0 (x : Nat) : Nat := rotr32 2 x ^^^ rotr32 13 x ^^^ rotr32 22 x

/-- SHA-256 Σ₁. -/
def bsig1 (x : Nat) : Nat := rotr32 6 x ^^^ rotr32 11 x ^^^ rotr32 25 x

/-- SHA-256 σ₀. -/
def ssig0 (x : Nat) : Nat := rotr32 7 x ^^^ rotr32 18 x ^^^ (x >>> 3)

/-- SHA-256 σ₁. -/
def ssig1 (x : Nat) : Nat := rotr32 17 x ^^^ rotr32 19 x ^^^ (x >>> 10)

/-- SHA-256 Ch. -/
def sha2ch (x y z : Nat) : Nat := (x &&& y) ^^^ ((x ^^^ 0xFFFFFFFF) &&& z)

/-- SHA-256 Maj. -/
def sha2maj (x y z : Nat) : Nat := (x &&& y) ^^^ (x &&& z) ^^^ (y &&& z)

/-- The 64 SHA-256 round constants K0..K63 of FIPS 180-4 (the first 32
bits of the fractional parts of the cube roots of the first 64 primes),
written here in decimal. -/
def K256 : List Nat :=
  [1116352408, 1899447441, 3049323471, 3921009573, 961987163, 1508970993,
   2453635748, 2870763221, 3624381080, 310598401, 607225278, 1426881987,
   1925078388, 2162078206, 2614888103, 3248222580, 3835390401, 4022224774,
   264347078, 604807628, 770255983, 1249150122, 1555081692, 1996064986,
   2554220882, 2821834349, 2952996808, 3210313671, 3336571891, 3584528711,
   113926993, 338241895, 666307205, 773529912, 1294757372, 1396182291,
   1695183700, 1986661051, 2177026350, 2456956037, 2730485921, 2820302411,
   3259730800, 3345764771, 3516065817, 3600352804, 4094571909, 275423344,
   430227734, 506948616, 659060556, 883997877, 958139571, 1322822218,
   1537002063, 1747873779, 1955562222, 2024104815, 2227730452, 2361852424,
   2428436474, 2756734187, 3204031479, 3329325298]

/-- The SHA-256 initial hash value H0..H7 of FIPS 180-4, in decimal. -/
def H256 : List Nat :=
  [1779033703, 3144134277, 1013904242, 2773480762,
   1359893119, 2600822924, 528734635, 1541459225]

/-- The 8-byte big-endian encoding of a (64-bit) length. -/
def be8 (n : Nat) : List Nat :=
  [n >>> 56 &&& 255, n >>> 48 &&& 255, n >>> 40 &&& 255, n >>> 32 &&& 255,
   n >>> 24 &&& 255, n >>> 16 &&& 255, n >>> 8 &&& 255, n &&& 255]

/-- SHA-256 padding: `0x80`, zeros to 56 mod 64, then the bit length. -/
def sha256pad (msg : List Nat) : List Nat :=
  let len := msg.length
  let k := (119 - len % 64) % 64
  msg ++ 0x80 :: (List.replicate k 0 ++ be8 (8 * len))

/-- Grouping bytes into big-endian 32-bit words. -/
def toWords : List Nat → List Nat
  | b0 :: b1 :: b2 :: b3 :: rest =>
    ((((b0 <<< 8) ||| b1) <<< 8 ||| b2) <<< 8 ||| b3) :: toWords rest
  | _ => []

/-- The 64-byte chunks of a padded message. -/
def chunks64 (l : List Nat) : List (List Nat) :=
  (List.range (l.length / 64)).map (fun i => (l.drop (64 * i)).take 64)

/-- Extending the 16-word block to the 64-word message schedule. -/
def extendSchedule (w : List Nat) : List Nat :=
  (List.range 48).foldl
    (fun acc _ =>
      acc ++ [w32 (ssig1 (acc.getD (acc.length - 2) 0) + acc.getD (acc.length - 7) 0 +
                   ssig0 (acc.getD (acc.length - 15) 0) + acc.getD (acc.length - 16) 0)])
    w

/-- One SHA-256 round on the 8-word working state, given `(kᵢ, wᵢ)`. -/
def sha256round (st : List Nat) (kw : Nat × Nat) : List Nat :=
  match st with
  | [a, b, c, d, e, f, g, h] =>
    let t1 := w32 (h + bsig1 e + sha2ch e f g + kw.1 + kw.2)
    let t2 := w32 (bsig0 a + sha2maj a b c)
    [w32 (t1 + t2), a, b, c, w32 (d + t1), e, f, g]
  | other => other

/-- Compressing one 64-byte chunk into the running hash. -/
def sha256compress (h : List Nat) (chunk : List Nat) : List Nat :=
  let w := extendSchedule (toWords chunk)
  let st := (K256.zip w).foldl sha256round h
  (h.zip st).map (fun p => w32 (p.1 + p.2))

/-- `sha256.Sum256`: the 32-byte SHA-256 digest of a byte sequence. -/
def sha256 (msg : List Nat) : List Nat :=
  let hs := (chunks64 (sha256pad msg)).foldl sha256compress H256
  hs.foldr
    (fun w acc => (w >>> 24 &&& 255) :: (w >>> 16 &&& 255) :: (w >>> 8 &&& 255) :: (w &&& 255) :: acc)
    []

/-- The lower-case hexadecimal digit for a value below 16. -/
def hexChar : Nat → Char
  | 0 => '0' | 1 => '1' | 2 => '2' | 3 => '3'
  | 4 => '4' | 5 => '5' | 6 => '6' | 7 => '7'
  | 8 => '8' | 9 => '9' | 10 => 'a' | 11 => 'b'
  | 12 => 'c' | 13 => 'd' | 14 => 'e' | _ => 'f'

/-- `hex.EncodeToString`: each byte becomes two lower-case hex digits. -/
def hexEncode (bytes : List Nat) : String :=
  String.mk (bytes.foldr (fun b acc => hexChar (b >>> 4 &&& 15) :: hexChar (b &&& 15) :: acc) [])

/-- The UTF-8 bytes of a code point (Go `[]byte(string)`). -/
def utf8Bytes (c : Nat) : List Nat :=
  if c < 0x80 then [c]
  else if c < 0x800 then
    [0xC0 ||| (c >>> 6), 0x80 ||| (c &&& 0x3F)]
  else if c < 0x10000 then
    [0xE0 ||| (c >>> 12), 0x80 ||| ((c >>> 6) &&& 0x3F), 0x80 ||| (c &&& 0x3F)]
  else
    [0xF0 ||| (c >>> 18), 0x80 ||| ((c >>> 12) &&& 0x3F), 0x80 ||| ((c >>> 6) &&& 0x3F),
     0x80 ||| (c &&& 0x3F)]

/-- The UTF-8 byte sequence of a string (Go `[]byte(s)`). -/
def strBytes (s : String) : List Nat :=
  s.data.foldr (fun c acc => utf8Bytes c.toNat ++ acc) []

/-- `utils.HashString`: the lower-case hex SHA-256 of a string. -/
def HashString (input : String) : String :=
  hexEncode (sha256 (strBytes input))

/-- `utils.GenerateRefreshToken`: hex-encode 32 random bytes (the
plaintext), store its SHA-256 hex digest, expire 7 days from now.  The
random bytes read from `crypto/rand` are the explicit argument `b`
(masked to byte range). -/
def GenerateRefreshToken (b : List Nat) (now : Int) : String × String × Int :=
  let refreshToken := hexEncode (b.map (fun x => x &&& 255))
  let hashedToken := hexEncode (sha256 (strBytes refreshToken))
  (refreshToken, hashedToken, now + 7 * 24 * 3600)

/-- The token-validation phase of `Protect` (lines 59–97 of
`middleware/auth.go`), from a decoded token to either the authenticated
ObjectID or the rejection response: `ParseWithClaims`, then the
`claims["id"].(string)` assertion, then `ObjectIDFromHex`. -/
def validateAccessToken (env : Env) (now : Int) (tok : Token) : Except Response String :=
  match parseWithClaims (jwtSecret env) now tok with
  | .error _ => .error invalidTokenResp
  | .ok claims =>
    match claims.id with
    | none => .error invalidPayloadResp
    | some s =>
      match objectIDFromHex s with
      | none => .error invalidUserIDResp
      | some oid => .ok oid

/-! ### The user store (`models/user.go`, Mongo `users` collection) -/

/-- A document of the `users` collection.  The ObjectID `_id` is its
lower-case hex form; `refreshToken` holds the stored digest (BSON null
when cleared) and `refreshTokenExpire` the absolute expiry in Unix
seconds (BSON null when cleared). -/
structure User where
  id : String
  username : String
  email : String
  password : String
  refreshToken : Option String
  refreshTokenExpire : Option Int
deriving DecidableEq, Repr

/-- `models.NewUser`: a fresh user record with no refresh-token material. -/
def NewUser (username email hashedPassword : String) : User :=
  { id := "", username := username, email := email, password := hashedPassword
    refreshToken := none, refreshTokenExpire := none }

/-- The outcome of the `Protect` middleware for one request: either a
rejection response (the downstream handler is never invoked) or the
authenticated user attached to the request context. -/
inductive ProtectOutcome where
  | rejected (r : Response)
  | authenticated (u : User)
deriving DecidableEq, Repr

/-- Whether the middleware outcome lets the downstream handler run. -/
def ProtectOutcome.invokesHandler : ProtectOutcome → Bool
  | .authenticated _ => true
  | .rejected _ => false

/-- `middleware/auth.go` `Protect`, one request end to end.  The header is
Go's `c.GetHeader("Authorization")` (empty string when absent);
`decode` is the JWT compact-serialization decoder (`none` on a parse
error, which `ParseWithClaims` reports as a non-nil error); `store` is
the `users` collection. -/
def protect (env : Env) (now : Int) (decode : String → Option Token)
    (store : List User) (header : String) : ProtectOutcome :=
  if header = "" then .rejected missingHeaderResp
  else
    let parts := splitSpace header
    if parts.length = 2 ∧ parts.getD 0 "" = "Bearer" then
      match decode (parts.getD 1 "") with
      | none => .rejected invalidTokenResp
      | some tok =>
        match validateAccessToken env now tok with
        | .error r => .rejected r
        | .ok oid =>
          match store.find? (fun u => decide (u.id = oid)) with
          | none => .rejected userNotFoundResp
          | some u => .authenticated u
    else .rejected malformedHeaderResp

/-! ### The auth controller (`controllers/auth_controller.go`) -/

/-- Ideal-functionality model of `bcrypt.GenerateFromPassword`: the hash
is an opaque tag of the password (salting and cost elided; what the
embedding needs is that comparison succeeds exactly against the hash of
the same password). -/
def bcryptHash (password : String) : String :=
  "$2a$10$" ++ password

/-- Ideal-functionality model of `bcrypt.CompareHashAndPassword`:
succeeds exactly when `hash` was produced from `password`. -/
def bcryptCompare (hash password : String) : Bool :=
  hash == bcryptHash password

/-- Mongo `UpdateOne` filtered on `_id`: replace the refresh-token fields
of the first (in Mongo, the unique) document whose `_id` matches. -/
def updateTokens (store : List User) (uid : String) (rt : Option String)
    (rte : Option Int) : List User :=
  match store with
  | [] => []
  | u :: rest =>
    if u.id = uid then { u with refreshToken := rt, refreshTokenExpire := rte } :: rest
    else u :: updateTokens rest uid rt rte

/-- The filter of `RefreshToken`'s `FindOne`:
`{refreshToken: digest, refreshTokenExpire: {$gt: now}}` (a null stored
expiry does not satisfy `$gt`). -/
def matchesRefresh (digest : String) (now : Int) (u : User) : Bool :=
  decide (u.refreshToken = some digest) &&
    match u.refreshTokenExpire with
    | some e => decide (now < e)
    | none => false

/-- `AuthController.sendTokenResponse`: mint an access token, mint a
refresh token from the random bytes `b`, store the digest/expiry pair on
the user in a single update, and answer 200.  (Token signing cannot fail
in the model, so the error path is not reachable.) -/
def sendTokenResponse (store : List User) (u : User) (b : List Nat)
    (now : Int) : List User × Response :=
  let gen := GenerateRefreshToken b now
  (updateTokens store u.id (some gen.2.1) (some gen.2.2), okJSONResp)

/-- `AuthController.Register` (validated input): reject a duplicate
username or email, otherwise insert the new user (Mongo assigns
`newId`) and issue the token pair. -/
def registerOp (store : List User) (newId username email password : String)
    (b : List Nat) (now : Int) : List User × Response :=
  if store.any (fun u => u.username == username || u.email == email) then
    (store, duplicateUserResp)
  else
    let user := { NewUser username email (bcryptHash password) with id := newId }
    sendTokenResponse (store ++ [user]) user b now

/-- `AuthController.Login` (validated input): find the user by email,
compare the password against the stored bcrypt hash, and on success issue
the token pair.  Unknown email and wrong password both answer
`invalidCredentialsResp`. -/
def loginOp (store : List User) (email password : String) (b : List Nat)
    (now : Int) : List User × Response :=
  match store.find? (fun u => u.email == email) with
  | none => (store, invalidCredentialsResp)
  | some u =>
    if bcryptCompare u.password password then sendTokenResponse store u b now
    else (store, invalidCredentialsResp)

/-- `AuthController.Logout`: clear both refresh-token fields (set to BSON
null) of the authenticated user in a single update. -/
def logoutOp (store : List User) (uid : String) : List User × Response :=
  (updateTokens store uid none none, ⟨200, true, ""⟩)

/-- `AuthController.RefreshToken` (validated input): hash the presented
plaintext, look up a user whose stored digest matches and whose stored
expiry is strictly in the future, and on success rotate via
`sendTokenResponse`; otherwise answer `invalidRefreshResp`. -/
def refreshTokenOp (store : List User) (input : String) (b : List Nat)
    (now : Int) : List User × Response :=
  let hashedToken := HashString input
  match store.find? (matchesRefresh hashedToken now) with
  | none => (store, invalidRefreshResp)
  | some u => sendTokenResponse store u b now

/-- One core operation on the user store, with its request-time inputs
(randomness `b`, clock `now`, Mongo-assigned id). -/
inductive Op where
  | register (newId username email password : String) (b : List Nat) (now : Int)
  | login (email password : String) (b : List Nat) (now : Int)
  | refresh (input : String) (b : List Nat) (now : Int)
  | logout (uid : String)

/-- The store after one operation. -/
def applyOp (store : List User) : Op → List User
  | .register newId username email password b now =>
    (registerOp store newId username email password b now).1
  | .login email password b now => (loginOp store email password b now).1
  | .refresh input b now => (refreshTokenOp store input b now).1
  | .logout uid => (logoutOp store uid).1

/-- The store reached from the empty collection by a sequence of core
operations. -/
def runOps (ops : List Op) : List User :=
  ops.foldl applyOp []

/-- The paired-fields invariant: `refreshToken` and `refreshTokenExpire`
are both set or both cleared. -/
def pairedFields (u : User) : Prop :=
  u.refreshToken.isSome = u.refreshTokenExpire.isSome

/-! ### Helper lemmas -/

/-- The 16 lower-case hex digits. -/
def hexDigitList : List Char :=
  "0123456789abcdef".data

theorem hexChar_mem (n : Nat) : hexChar n ∈ hexDigitList := by
  unfold hexChar
  split <;> decide

theorem hexEncode_chars (bytes : List Nat) :
    ∀ c ∈ (hexEncode bytes).data, c ∈ hexDigitList := by
  induction bytes with
  | nil => simp [hexEncode]
  | cons b rest ih =>
    intro c hc
    have hc2 : c = hexChar (b >>> 4 &&& 15) ∨ c = hexChar (b &&& 15) ∨
        c ∈ (hexEncode rest).data := by
      simpa [hexEncode, List.mem_cons] using hc
    rcases hc2 with h | h | h
    · exact h ▸ hexChar_mem _
    · exact h ▸ hexChar_mem _
    · exact ih c h

/-- The digest component of `GenerateRefreshToken` is, definitionally, the
`HashString` of its plaintext component. -/
theorem generateRefreshToken_digest (b : List Nat) (now : Int) :
    (GenerateRefreshToken b now).2.1 = HashString (GenerateRefreshToken b now).1 := rfl

/-- The expiry component of `GenerateRefreshToken`. -/
theorem generateRefreshToken_expiry (b : List Nat) (now : Int) :
    (GenerateRefreshToken b now).2.2 = now + 7 * 24 * 3600 := rfl

theorem matchesRefresh_iff (digest : String) (now : Int) (u : User) :
    matchesRefresh digest now u = true ↔
      u.refreshToken = some digest ∧
        ∃ e, u.refreshTokenExpire = some e ∧ now < e := by
  cases hrte : u.refreshTokenExpire with
  | none => simp [matchesRefresh, hrte]
  | some e => simp [matchesRefresh, hrte]

/-! ### Claim theorems -/

/-- C10: for every call to `GenerateRefreshToken` (i.e. for all random
bytes `b` and clock `now`), `HashString` of the returned plaintext equals
the returned digest; both are the (lower-case) hex encoding of the
SHA-256 of the plaintext, and every character of the digest is a
lower-case hex digit. -/
theorem digest_consistency (b : List Nat) (now : Int) :
    HashString (GenerateRefreshToken b now).1 = (GenerateRefreshToken b now).2.1 ∧
    (GenerateRefreshToken b now).2.1 =
      hexEncode (sha256 (strBytes (GenerateRefreshToken b now).1)) ∧
    ∀ c ∈ ((GenerateRefreshToken b now).2.1).data, c ∈ hexDigitList := by
  refine ⟨(generateRefreshToken_digest b now).symm, rfl, ?_⟩
  exact hexEncode_chars _

/-- C3: a request with no `Authorization` header is rejected with the
missing-header response, and a present header that does not split on
spaces into exactly two parts whose first part is the case-sensitive
string `"Bearer"` is rejected with the malformed-header response; in both
cases the downstream handler is never invoked. -/
theorem header_gate (env : Env) (now : Int) (decode : String → Option Token)
    (store : List User) (header : String) :
    (header = "" →
      protect env now decode store header = .rejected missingHeaderResp ∧
      (protect env now decode store header).invokesHandler = false) ∧
    (header ≠ "" →
      ¬ ((splitSpace header).length = 2 ∧ (splitSpace header).getD 0 "" = "Bearer") →
      protect env now decode store header = .rejected malformedHeaderResp ∧
      (protect env now decode store header).invokesHandler = false) := by
  constructor
  · intro h
    simp only [protect]
    rw [if_pos h]
    exact ⟨rfl, rfl⟩
  · intro h hbad
    simp only [protect]
    rw [if_neg h, if_neg hbad]
    exact ⟨rfl, rfl⟩

theorem header_gate_witness :
    (protect [] 0 (fun _ => none) [] "" = .rejected missingHeaderResp ∧
      (protect [] 0 (fun _ => none) [] "").invokesHandler = false) ∧
    (protect [] 0 (fun _ => none) [] "Token abc" = .rejected malformedHeaderResp ∧
      (protect [] 0 (fun _ => none) [] "Token abc").invokesHandler = false) ∧
    (protect [] 0 (fun _ => none) [] "bearer abc" = .rejected malformedHeaderResp ∧
      (protect [] 0 (fun _ => none) [] "bearer abc").invokesHandler = false) :=
  ⟨(header_gate [] 0 (fun _ => none) [] "").1 rfl,
   (header_gate [] 0 (fun _ => none) [] "Token abc").2 (by decide) (by decide),
   (header_gate [] 0 (fun _ => none) [] "bearer abc").2 (by decide) (by decide)⟩

/-- C6: a well-formed `Bearer` header carrying a token whose declared
signing algorithm is not an HMAC method (e.g. "none" or RSA) is rejected:
the key function fails, the parse error collapses to the invalid-token
response, and the downstream handler is never invoked. -/
theorem alg_substitution_rejected (env : Env) (now : Int)
    (decode : String → Option Token) (store : List User) (header ts : String)
    (tok : Token)
    (hsplit : splitSpace header = ["Bearer", ts])
    (hdecode : decode ts = some tok)
    (halg : tok.alg.isHMAC = false) :
    protect env now decode store header = .rejected invalidTokenResp ∧
    (protect env now decode store header).invokesHandler = false := by
  have hne : header ≠ "" := by
    intro h
    rw [h] at hsplit
    simp [splitSpace, splitSpaceChars] at hsplit
  simp only [protect, splitSpace] at hsplit ⊢
  rw [if_neg hne, hsplit]
  have hcond : (["Bearer", ts].length = 2 ∧ ["Bearer", ts].getD 0 "" = "Bearer") :=
    ⟨rfl, rfl⟩
  rw [if_pos hcond]
  have hts : (["Bearer", ts].getD 1 "") = ts := rfl
  rw [hts, hdecode]
  simp [validateAccessToken, parseWithClaims, halg, ProtectOutcome.invokesHandler]

theorem alg_substitution_rejected_witness :
    protect [] 0 (fun _ => some ⟨.noneAlg, ⟨some "x", some 100, some 0⟩, none⟩) []
        "Bearer abc" = .rejected invalidTokenResp ∧
    (protect [] 0 (fun _ => some ⟨.noneAlg, ⟨some "x", some 100, some 0⟩, none⟩) []
        "Bearer abc").invokesHandler = false :=
  alg_substitution_rejected [] 0 _ [] "Bearer abc" "abc" _ (by decide) rfl (by decide)

/-- C1: for every identity id (a canonical ObjectID hex string, as
produced by `ObjectID.Hex()`), configured lifetime `L`, issuance time `i`
and verification time `t` under the same environment, the middleware's
JWT validation of `GenerateAccessToken`'s output returns the same id
whenever `t < i + L` (strictly less than `L` after issuance), and at or
after `i + L` it fails with the expiry error, externally reported as the
invalid-token response. -/
theorem access_token_round_trip (env : Env) (id : String) (i L t : Int)
    (hhex : objectIDFromHex id = some id) :
    (t < i + L →
      validateAccessToken env t (GenerateAccessToken env id i L) = .ok id) ∧
    (i + L ≤ t →
      parseWithClaims (jwtSecret env) t (GenerateAccessToken env id i L) =
        .error .expired ∧
      validateAccessToken env t (GenerateAccessToken env id i L) =
        .error invalidTokenResp) := by
  have hparse : ∀ now : Int, parseWithClaims (jwtSecret env) now
      (GenerateAccessToken env id i L) =
      if now < i + L then .ok ⟨some id, some (i + L), some i⟩ else .error .expired := by
    intro now
    simp [parseWithClaims, GenerateAccessToken, GetTokenExpiration, Alg.isHMAC]
  constructor
  · intro ht
    simp [validateAccessToken, hparse t, if_pos ht, hhex]
  · intro ht
    have hnt : ¬ t < i + L := not_lt.mpr ht
    constructor
    · rw [hparse t, if_neg hnt]
    · simp [validateAccessToken, hparse t, if_neg hnt]

theorem access_token_round_trip_witness :
    validateAccessToken [("JWT_SECRET", "k")] 5
        (GenerateAccessToken [("JWT_SECRET", "k")] "0123456789abcdef01234567" 0 10) =
      .ok "0123456789abcdef01234567" ∧
    parseWithClaims (jwtSecret [("JWT_SECRET", "k")]) 10
        (GenerateAccessToken [("JWT_SECRET", "k")] "0123456789abcdef01234567" 0 10) =
      .error .expired ∧
    validateAccessToken [("JWT_SECRET", "k")] 10
        (GenerateAccessToken [("JWT_SECRET", "k")] "0123456789abcdef01234567" 0 10) =
      .error invalidTokenResp :=
  ⟨(access_token_round_trip [("JWT_SECRET", "k")] "0123456789abcdef01234567" 0 10 5
      (by decide)).1 (by decide),
   (access_token_round_trip [("JWT_SECRET", "k")] "0123456789abcdef01234567" 0 10 10
      (by decide)).2 (by decide)⟩

/-- A token whose HS256 signature was made under a different key than the
configured secret `"k"`. -/
def badSigToken : Token :=
  let c : Claims := ⟨some "0123456789abcdef01234567", some 100, some 0⟩
  ⟨.hs256, c, some ⟨.hs256, c, "other"⟩⟩

/-- A token correctly signed under `"k"` and unexpired at time 50, but
whose claim set has no string `"id"` entry. -/
def noIdToken : Token :=
  let c : Claims := ⟨none, some 100, some 0⟩
  ⟨.hs256, c, some ⟨.hs256, c, "k"⟩⟩

/-- C7, counterexample: an invalid-signature token and a
missing-id-claim token are both codec failures, yet the middleware
rejects them with different error messages ("Invalid or expired token"
vs "Invalid token payload"), so the three failure causes are not
collapsed into one and the same response. -/
theorem collapsed_rejection_cex :
    validateAccessToken [("JWT_SECRET", "k")] 50 badSigToken =
      .error invalidTokenResp ∧
    validateAccessToken [("JWT_SECRET", "k")] 50 noIdToken =
      .error invalidPayloadResp ∧
    invalidTokenResp ≠ invalidPayloadResp := by
  refine ⟨rfl, rfl, by decide⟩

/-- C7, amended: every token-validation failure is externally a 401 with
`success: false`; the three `ParseWithClaims` failure causes (wrong
algorithm, invalid signature, expiry) are collapsed into the single
invalid-token response, but claim-payload failures are reported with the
same status and distinct messages (`invalidPayloadResp`,
`invalidUserIDResp`), so only signature/expiry/algorithm failures are
mutually indistinguishable. -/
theorem collapsed_rejection_amended (env : Env) (now : Int) (tok : Token)
    (r : Response) (h : validateAccessToken env now tok = .error r) :
    r.status = 401 ∧ r.success = false ∧
    (∀ e, parseWithClaims (jwtSecret env) now tok = .error e →
      r = invalidTokenResp) ∧
    (r = invalidTokenResp ∨ r = invalidPayloadResp ∨ r = invalidUserIDResp) := by
  unfold validateAccessToken at h
  split at h
  · cases h
    exact ⟨rfl, rfl, fun _ _ => rfl, Or.inl rfl⟩
  · rename_i claims hp
    have hnone : ∀ e, parseWithClaims (jwtSecret env) now tok = .error e →
        r = invalidTokenResp := by
      intro e he
      rw [hp] at he
      exact absurd he (by simp)
    split at h
    · cases h
      exact ⟨rfl, rfl, hnone, Or.inr (Or.inl rfl)⟩
    · rename_i s hid
      split at h
      · cases h
        exact ⟨rfl, rfl, hnone, Or.inr (Or.inr rfl)⟩
      · cases h

theorem collapsed_rejection_amended_witness :
    invalidPayloadResp.status = 401 ∧ invalidPayloadResp.success = false ∧
    (∀ e, parseWithClaims (jwtSecret [("JWT_SECRET", "k")]) 50 noIdToken = .error e →
      invalidPayloadResp = invalidTokenResp) ∧
    (invalidPayloadResp = invalidTokenResp ∨ invalidPayloadResp = invalidPayloadResp ∨
      invalidPayloadResp = invalidUserIDResp) :=
  collapsed_rejection_amended [("JWT_SECRET", "k")] 50 noIdToken invalidPayloadResp rfl

/-- C9, counterexample: with `JWT_SECRET` absent from the environment,
the program still issues an access token (falling back to the default
secret) and the middleware still validates it successfully — a missing
signing secret is not a fatal condition in this code. -/
theorem missing_secret_cex :
    lookupEnv [] "JWT_SECRET" = none ∧
    jwtSecret [] = "your-secret-key" ∧
    validateAccessToken [] 5
        (GenerateAccessToken [] "0123456789abcdef01234567" 0 10) =
      .ok "0123456789abcdef01234567" := by
  refine ⟨rfl, rfl, rfl⟩

/-- C9, amended: when `JWT_SECRET` is absent, `GetEnv` falls back to the
default secret `"your-secret-key"`; issuance then signs with that default
and verification under the same environment still succeeds, so the
program proceeds rather than failing at startup. -/
theorem missing_secret_fallback (env : Env) (id : String) (i L t : Int)
    (hmissing : lookupEnv env "JWT_SECRET" = none)
    (hhex : objectIDFromHex id = some id)
    (ht : t < i + L) :
    jwtSecret env = "your-secret-key" ∧
    (GenerateAccessToken env id i L).sig =
      some ⟨.hs256, ⟨some id, some (i + L), some i⟩, "your-secret-key"⟩ ∧
    validateAccessToken env t (GenerateAccessToken env id i L) = .ok id := by
  have hsec : jwtSecret env = "your-secret-key" := by
    simp [jwtSecret, GetEnv, hmissing]
  refine ⟨hsec, ?_, ?_⟩
  · simp [GenerateAccessToken, GetTokenExpiration, hsec]
  · simp [validateAccessToken, parseWithClaims, GenerateAccessToken,
      GetTokenExpiration, Alg.isHMAC, if_pos ht, hhex]

theorem missing_secret_fallback_witness :
    jwtSecret [] = "your-secret-key" ∧
    (GenerateAccessToken [] "0123456789abcdef01234567" 0 10).sig =
      some ⟨.hs256, ⟨some "0123456789abcdef01234567", some (0 + 10), some 0⟩,
        "your-secret-key"⟩ ∧
    validateAccessToken [] 5
        (GenerateAccessToken [] "0123456789abcdef01234567" 0 10) =
      .ok "0123456789abcdef01234567" :=
  missing_secret_fallback [] "0123456789abcdef01234567" 0 10 5 rfl (by decide) (by decide)

/-- C8: a two-run statement over `Login` — one run failing because the
email is unknown, the other because the password is wrong for an existing
account — produces the identical externally visible response (same status
code and same error body), and neither run changes the store. -/
theorem login_indistinguishable (store : List User) (e1 p1 e2 p2 : String)
    (b1 b2 : List Nat) (now1 now2 : Int) (u : User)
    (h1 : store.find? (fun v => v.email == e1) = none)
    (h2 : store.find? (fun v => v.email == e2) = some u)
    (h3 : bcryptCompare u.password p2 = false) :
    loginOp store e1 p1 b1 now1 = (store, invalidCredentialsResp) ∧
    loginOp store e2 p2 b2 now2 = (store, invalidCredentialsResp) ∧
    (loginOp store e1 p1 b1 now1).2 = (loginOp store e2 p2 b2 now2).2 := by
  have ha : loginOp store e1 p1 b1 now1 = (store, invalidCredentialsResp) := by
    simp [loginOp, h1]
  have hb : loginOp store e2 p2 b2 now2 = (store, invalidCredentialsResp) := by
    simp [loginOp, h2, h3]
  exact ⟨ha, hb, by rw [ha, hb]⟩

theorem login_indistinguishable_witness :
    loginOp [⟨"u1", "bob", "bob@x.io", bcryptHash "pw", none, none⟩]
        "nobody@x.io" "pw" [] 0 = ([⟨"u1", "bob", "bob@x.io", bcryptHash "pw", none, none⟩],
      invalidCredentialsResp) ∧
    loginOp [⟨"u1", "bob", "bob@x.io", bcryptHash "pw", none, none⟩]
        "bob@x.io" "wrong" [] 0 = ([⟨"u1", "bob", "bob@x.io", bcryptHash "pw", none, none⟩],
      invalidCredentialsResp) ∧
    (loginOp [⟨"u1", "bob", "bob@x.io", bcryptHash "pw", none, none⟩]
        "nobody@x.io" "pw" [] 0).2 =
      (loginOp [⟨"u1", "bob", "bob@x.io", bcryptHash "pw", none, none⟩]
        "bob@x.io" "wrong" [] 0).2 :=
  login_indistinguishable [⟨"u1", "bob", "bob@x.io", bcryptHash "pw", none, none⟩]
    "nobody@x.io" "pw" "bob@x.io" "wrong" [] [] 0 0
    ⟨"u1", "bob", "bob@x.io", bcryptHash "pw", none, none⟩ (by decide) (by decide)
    (by decide)

/-- C4: the stored refresh expiry is an exclusive upper bound — if every
user whose stored digest matches the presented token has
`refreshTokenExpire` exactly equal to `now`, the refresh fails with the
invalid-refresh response (and the store is unchanged); and conversely any
successful refresh found a user whose stored expiry is strictly greater
than `now`. -/
theorem refresh_expiry_boundary (store : List User) (input : String)
    (b : List Nat) (now : Int) :
    ((∀ u ∈ store, u.refreshToken = some (HashString input) →
        u.refreshTokenExpire = some now) →
      refreshTokenOp store input b now = (store, invalidRefreshResp)) ∧
    (∀ st2 r, refreshTokenOp store input b now = (st2, r) → r.success = true →
      ∃ u ∈ store, u.refreshToken = some (HashString input) ∧
        ∃ e, u.refreshTokenExpire = some e ∧ now < e) := by
  constructor
  · intro hall
    have hnone : store.find? (matchesRefresh (HashString input) now) = none := by
      rw [List.find?_eq_none]
      intro u hu hmatch
      rcases (matchesRefresh_iff _ _ _).mp hmatch with ⟨hrt, e, hrte, hlt⟩
      have := hall u hu hrt
      rw [this] at hrte
      cases hrte
      exact lt_irrefl now hlt
    simp [refreshTokenOp, hnone]
  · intro st2 r heq hsucc
    cases hf : store.find? (matchesRefresh (HashString input) now) with
    | none =>
      simp [refreshTokenOp, hf] at heq
      rw [← heq.2] at hsucc
      cases hsucc
    | some u =>
      refine ⟨u, List.mem_of_find?_eq_some hf, ?_⟩
      exact (matchesRefresh_iff _ _ _).mp (List.find?_some hf)

theorem refresh_expiry_boundary_witness :
    refreshTokenOp [⟨"u1", "bob", "bob@x.io", "h", some (HashString "tok"), some 42⟩]
        "tok" [] 42 =
      ([⟨"u1", "bob", "bob@x.io", "h", some (HashString "tok"), some 42⟩],
        invalidRefreshResp) :=
  (refresh_expiry_boundary [⟨"u1", "bob", "bob@x.io", "h", some (HashString "tok"), some 42⟩]
    "tok" [] 42).1 (by decide)

theorem pairedFields_updateTokens {store : List User} {uid : String}
    {rt : Option String} {rte : Option Int}
    (hp : rt.isSome = rte.isSome)
    (h : ∀ u ∈ store, pairedFields u) :
    ∀ u ∈ updateTokens store uid rt rte, pairedFields u := by
  induction store with
  | nil => simp [updateTokens]
  | cons v rest ih =>
    intro u hu
    unfold updateTokens at hu
    by_cases hv : v.id = uid
    · rw [if_pos hv] at hu
      rcases List.mem_cons.mp hu with h1 | h1
      · rw [h1]
        exact hp
      · exact h u (List.mem_cons_of_mem v h1)
    · rw [if_neg hv] at hu
      rcases List.mem_cons.mp hu with h1 | h1
      · rw [h1]
        exact h v (List.mem_cons_self v rest)
      · exact ih (fun w hw => h w (List.mem_cons_of_mem v hw)) u h1

theorem pairedFields_sendTokenResponse {store : List User} {u : User}
    {b : List Nat} {now : Int}
    (h : ∀ v ∈ store, pairedFields v) :
    ∀ v ∈ (sendTokenResponse store u b now).1, pairedFields v := by
  unfold sendTokenResponse
  exact pairedFields_updateTokens rfl h

theorem pairedFields_applyOp (store : List User) (op : Op)
    (h : ∀ u ∈ store, pairedFields u) :
    ∀ u ∈ applyOp store op, pairedFields u := by
  cases op with
  | register newId username email password b now =>
    simp only [applyOp, registerOp]
    split
    · exact h
    · apply pairedFields_sendTokenResponse
      intro v hv
      rcases List.mem_append.mp hv with h1 | h1
      · exact h v h1
      · rcases List.mem_singleton.mp h1 with rfl
        rfl
  | login email password b now =>
    simp only [applyOp, loginOp]
    split
    · exact h
    · split
      · exact pairedFields_sendTokenResponse h
      · exact h
  | refresh input b now =>
    simp only [applyOp, refreshTokenOp]
    split
    · exact h
    · exact pairedFields_sendTokenResponse h
  | logout uid =>
    simp only [applyOp, logoutOp]
    exact pairedFields_updateTokens rfl h

theorem pairedFields_foldl (ops : List Op) :
    ∀ store : List User, (∀ u ∈ store, pairedFields u) →
      ∀ u ∈ ops.foldl applyOp store, pairedFields u := by
  induction ops with
  | nil => exact fun store h => h
  | cons op rest ih =>
    intro store h
    exact ih (applyOp store op) (pairedFields_applyOp store op h)

/-- C5: in every store reachable from the empty collection by any
sequence of the core operations (register, login, refresh, logout), every
user record has `refreshToken` and `refreshTokenExpire` both set or both
cleared — no reachable state mixes a set field with a null one. -/
theorem paired_fields_invariant (ops : List Op) :
    ∀ u ∈ runOps ops, pairedFields u := by
  unfold runOps
  exact pairedFields_foldl ops [] (by simp)

theorem paired_fields_invariant_witness :
    (⟨"u1", "alice", "a@x.io", bcryptHash "pw", none, none⟩ : User) ∈
      runOps [.register "u1" "alice" "a@x.io" "pw" [1] 0, .logout "u1"] ∧
    pairedFields ⟨"u1", "alice", "a@x.io", bcryptHash "pw", none, none⟩ :=
  ⟨by decide,
   paired_fields_invariant [.register "u1" "alice" "a@x.io" "pw" [1] 0, .logout "u1"]
     ⟨"u1", "alice", "a@x.io", bcryptHash "pw", none, none⟩ (by decide)⟩

theorem updateTokens_mem {store : List User} {uid : String}
    {rt : Option String} {rte : Option Int}
    (hnd : (store.map User.id).Nodup) :
    ∀ v ∈ updateTokens store uid rt rte,
      (v.id = uid ∧ v.refreshToken = rt ∧ v.refreshTokenExpire = rte) ∨
        (v ∈ store ∧ v.id ≠ uid) := by
  induction store with
  | nil => simp [updateTokens]
  | cons w rest ih =>
    have hw : w.id ∉ rest.map User.id := (List.nodup_cons.mp hnd).1
    have hrest : (rest.map User.id).Nodup := (List.nodup_cons.mp hnd).2
    intro v hv
    unfold updateTokens at hv
    by_cases hid : w.id = uid
    · rw [if_pos hid] at hv
      rcases List.mem_cons.mp hv with h1 | h1
      · exact Or.inl ⟨h1 ▸ hid, h1 ▸ rfl, h1 ▸ rfl⟩
      · refine Or.inr ⟨List.mem_cons_of_mem w h1, ?_⟩
        intro hvid
        apply hw
        have hm : v.id ∈ rest.map User.id := List.mem_map_of_mem User.id h1
        rw [hvid, ← hid] at hm
        exact hm
    · rw [if_neg hid] at hv
      rcases List.mem_cons.mp hv with h1 | h1
      · exact Or.inr ⟨h1 ▸ List.mem_cons_self w rest, h1 ▸ hid⟩
      · rcases ih hrest v h1 with h2 | ⟨h2, h3⟩
        · exact Or.inl h2
        · exact Or.inr ⟨List.mem_cons_of_mem w h2, h3⟩

theorem updateTokens_mem_updated {store : List User} {uid : String}
    {rt : Option String} {rte : Option Int} {w : User}
    (hw : w ∈ store) (hid : w.id = uid) :
    ∃ v ∈ updateTokens store uid rt rte,
      v.refreshToken = rt ∧ v.refreshTokenExpire = rte := by
  induction store with
  | nil => cases hw
  | cons u0 rest ih =>
    unfold updateTokens
    by_cases h0 : u0.id = uid
    · exact ⟨_, by rw [if_pos h0]; exact List.mem_cons_self _ _, rfl, rfl⟩
    · rcases List.mem_cons.mp hw with h1 | h1
      · exact absurd (h1 ▸ hid) h0
      · rcases ih h1 with ⟨v, hv, hvp⟩
        exact ⟨v, by rw [if_neg h0]; exact List.mem_cons_of_mem u0 hv, hvp⟩

/-- C2: rotation.  Suppose a refresh presenting the old plaintext at time
`now` succeeds, finding the (unique, by `_id`-nodup and digest
uniqueness) user whose stored digest is `D1 = HashString old`, and the
freshly generated digest `D2` differs from `D1` (no SHA-256 collision).
Then in the post-rotation store the stored pair has been replaced, every
subsequent refresh presenting the old plaintext — at any time, with any
randomness — fails with the invalid-refresh response and leaves the store
unchanged (so all later attempts fail identically, until a next rotation
or revocation changes the store), while presenting the new plaintext at
any time before its expiry succeeds. -/
theorem refresh_rotation (store : List User) (old : String)
    (b bs2 bs3 : List Nat) (now now2 : Int) (u : User)
    (hnd : (store.map User.id).Nodup)
    (hfound : store.find? (matchesRefresh (HashString old) now) = some u)
    (hunique : ∀ v ∈ store, v.refreshToken = some (HashString old) → v.id = u.id)
    (hcol : HashString (GenerateRefreshToken b now).1 ≠ HashString old)
    (hlive : now2 < now + 7 * 24 * 3600) :
    refreshTokenOp ((refreshTokenOp store old b now).1) old bs2 now2 =
      ((refreshTokenOp store old b now).1, invalidRefreshResp) ∧
    (refreshTokenOp ((refreshTokenOp store old b now).1)
        (GenerateRefreshToken b now).1 bs3 now2).2 = okJSONResp := by
  have hstore2 : (refreshTokenOp store old b now).1 =
      updateTokens store u.id (some (GenerateRefreshToken b now).2.1)
        (some ((GenerateRefreshToken b now).2.2)) := by
    simp [refreshTokenOp, hfound, sendTokenResponse]
  rw [hstore2]
  constructor
  · have hnone : (updateTokens store u.id (some (GenerateRefreshToken b now).2.1)
        (some ((GenerateRefreshToken b now).2.2))).find?
          (matchesRefresh (HashString old) now2) = none := by
      rw [List.find?_eq_none]
      intro v hv hmatch
      rcases (matchesRefresh_iff _ _ _).mp hmatch with ⟨hrt, _, _, _⟩
      rcases updateTokens_mem hnd v hv with ⟨_, hrt2, _⟩ | ⟨hmem, hne⟩
      · rw [hrt2] at hrt
        have h3 : (GenerateRefreshToken b now).2.1 = HashString old := Option.some.inj hrt
        rw [generateRefreshToken_digest] at h3
        exact hcol h3
      · exact hne (hunique v hmem hrt)
    simp only [refreshTokenOp]
    rw [hnone]
  · have hmem : u ∈ store := List.mem_of_find?_eq_some hfound
    rcases @updateTokens_mem_updated store u.id (some (GenerateRefreshToken b now).2.1)
        (some ((GenerateRefreshToken b now).2.2)) u hmem rfl with ⟨v, hv, hvrt, hvrte⟩
    have hvmatch : matchesRefresh (HashString (GenerateRefreshToken b now).1) now2 v = true := by
      rw [matchesRefresh_iff]
      refine ⟨?_, (GenerateRefreshToken b now).2.2, hvrte, ?_⟩
      · rw [hvrt, generateRefreshToken_digest]
      · rw [generateRefreshToken_expiry]
        exact hlive
    cases hf2 : (updateTokens store u.id (some (GenerateRefreshToken b now).2.1)
        (some ((GenerateRefreshToken b now).2.2))).find?
          (matchesRefresh (HashString (GenerateRefreshToken b now).1) now2) with
    | none =>
      rw [List.find?_eq_none] at hf2
      exact absurd hvmatch (hf2 v hv)
    | some w =>
      simp only [refreshTokenOp]
      rw [hf2]
      rfl

theorem refresh_rotation_witness :
    refreshTokenOp
        ((refreshTokenOp [⟨"u1", "alice", "a@x.io", "h", some (HashString "oldtok"), some 100⟩]
          "oldtok" [1] 50).1) "oldtok" [] 60 =
      ((refreshTokenOp [⟨"u1", "alice", "a@x.io", "h", some (HashString "oldtok"), some 100⟩]
          "oldtok" [1] 50).1, invalidRefreshResp) ∧
    (refreshTokenOp
        ((refreshTokenOp [⟨"u1", "alice", "a@x.io", "h", some (HashString "oldtok"), some 100⟩]
          "oldtok" [1] 50).1) (GenerateRefreshToken [1] 50).1 [] 60).2 = okJSONResp :=
  refresh_rotation [⟨"u1", "alice", "a@x.io", "h", some (HashString "oldtok"), some 100⟩]
    "oldtok" [1] [] [] 50 60
    ⟨"u1", "alice", "a@x.io", "h", some (HashString "oldtok"), some 100⟩
    (by decide) (by decide) (by decide) (by decide) (by decide)
